import Mathlib

/-
  Shallow embedding of the auth core of the backend_fastroute repository:
  the JWT middleware (src/middleware/auth.js), the auth routes
  (src/unnamed/part_000 = routes/auth.js: login, register, verify) and the
  route protection wiring in src/server.js.

  External library primitives (jsonwebtoken, bcryptjs, express-validator)
  are modelled as idealized symbolic functions, documented at each
  definition; the repository code itself is translated line by line.
-/

namespace FastRoute

/-! ## JWT model (jsonwebtoken library, symbolic) -/

/-- The three application claims placed in a token by generateToken
(routes/auth.js lines 12-22): userId, email, nome. -/
structure JwtClaims where
  userId : Nat
  email : String
  nome : String
deriving DecidableEq

/-- A signed token: claims plus issued-at, expires-at and the signature.
jsonwebtoken serializes this to a string; here the structured form is kept
and garbage wire strings are handled by the wire decoding parameter of the
string level verifier. -/
structure SignedToken where
  claims : JwtClaims
  iat : Nat
  exp : Nat
  sig : String
deriving DecidableEq

/-- Idealized message authentication code over the payload: the tag binds
the secret and every payload field. Models the HMAC signature of
jsonwebtoken symbolically. -/
def jwtMac (secret : String) (c : JwtClaims) (iat exp : Nat) : String :=
  String.intercalate "|" [secret, toString c.userId, c.email, c.nome, toString iat, toString exp]

/-- jwt.sign(payload, secret, expiresIn): issued at `now`, expiry 86400
seconds later when called with the 24h option used by generateToken. -/
def jwtSign (secret : String) (now : Nat) (lifetime : Nat) (c : JwtClaims) : SignedToken :=
  { claims := c, iat := now, exp := now + lifetime, sig := jwtMac secret c now (now + lifetime) }

/-- Failure modes of jwt.verify: bad signature or malformed token
(JsonWebTokenError) and expired token (TokenExpiredError). -/
inductive JwtError where
  | invalid
  | expired
deriving DecidableEq

/-- jwt.verify on a structurally decoded token: signature check against the
shared secret first, then the expiry check (jsonwebtoken rejects exactly
when the clock timestamp is at or past exp). -/
def jwtVerifyTok (secret : String) (now : Nat) (t : SignedToken) : Except JwtError SignedToken :=
  if t.sig ≠ jwtMac secret t.claims t.iat t.exp then .error .invalid
  else if t.exp ≤ now then .error .expired
  else .ok t

/-- jwt.verify on a wire string: `wire` is the decoding of the serialized
token format; strings that are not well formed tokens decode to none and
fail as malformed. -/
def jwtVerifyStr (wire : String → Option SignedToken) (secret : String) (now : Nat)
    (s : String) : Except JwtError SignedToken :=
  match wire s with
  | none => .error .invalid
  | some t => jwtVerifyTok secret now t

/-- generateToken (routes/auth.js lines 12-22): signs userId, email, nome
with the shared secret and a 24 hour (86400 second) expiry. -/
def generateToken (secret : String) (now : Nat) (userId : Nat) (email nome : String) :
    SignedToken :=
  jwtSign secret now 86400 { userId := userId, email := email, nome := nome }

/-! ## Authorization header extraction (middleware/auth.js lines 7-8) -/

/-- JavaScript String.prototype.split with separator a single space:
splits the character list at every space, keeping empty groups. -/
def splitOnSpace : List Char → List (List Char)
  | [] => [[]]
  | c :: rest =>
    let r := splitOnSpace rest
    if c = ' ' then [] :: r
    else
      match r with
      | [] => [[c]]
      | g :: gs => (c :: g) :: gs

/-- String level wrapper of the JS split on space. -/
def jsSplitSpace (s : String) : List String :=
  (splitOnSpace s.data).map (fun g => String.mk g)

/-- Lines 7-8 of middleware/auth.js (identical in the verify route):
token equals authHeader and-then the part at index 1 of the split of the
header at spaces. A missing header, an empty
header, a split with fewer than two parts, and an empty second part all
leave the token JS-falsy, modelled as none. -/
def extractToken (authHeader : Option String) : Option String :=
  match authHeader with
  | none => none
  | some h =>
    if h = "" then none
    else
      match (jsSplitSpace h).drop 1 with
      | [] => none
      | t :: _ => if t = "" then none else some t

/-! ## The Access Gate (middleware/auth.js authenticateToken) -/

/-- Outcome of the middleware on one request: either a terminal JSON error
response, or the request proceeds to the matched handler with the decoded
token attached as req.user. -/
inductive GateResult where
  | reject (status : Nat) (error : String)
  | proceed (user : SignedToken)
deriving DecidableEq

/-- authenticateToken (middleware/auth.js lines 6-27): extract the token
from the Authorization header, 401 when absent, verify it against the
shared secret, 403 on any verification error, otherwise attach the decoded
claims and call next(). -/
def authenticateToken (wire : String → Option SignedToken) (secret : String) (now : Nat)
    (authHeader : Option String) : GateResult :=
  match extractToken authHeader with
  | none => .reject 401 "Token de acesso requerido"
  | some ts =>
    match jwtVerifyStr wire secret now ts with
    | .error _ => .reject 403 "Token inválido ou expirado"
    | .ok t => .proceed t

/-- The four route namespaces guarded by authenticateToken
(src/server.js lines 77-80). -/
def protectedNamespaces : List String :=
  ["/api/tarefas", "/api/motoristas", "/api/caminhoes", "/api/estatisticas"]

/-- Leading segment test on character lists, modelling the Express mount
path matching of app.use(path, middleware). -/
def leadsWith : List Char → List Char → Bool
  | [], _ => true
  | _ :: _, [] => false
  | p :: ps, c :: cs => p == c && leadsWith ps cs

/-- Route wiring of src/server.js: a request path under one of the
protected namespaces passes through the Access Gate; other paths bypass it
(none). -/
def routeGate (wire : String → Option SignedToken) (secret : String) (now : Nat)
    (path : String) (authHeader : Option String) : Option GateResult :=
  if protectedNamespaces.any (fun ns => leadsWith ns.data path.data) then
    some (authenticateToken wire secret now authHeader)
  else
    none

/-! ## bcrypt model (bcryptjs library, symbolic) -/

/-- A bcrypt hash: the cost factor and random salt are embedded in the
output alongside the key derivation digest, as in the real $2a$cost$salt
serialization. -/
structure BcryptHash where
  cost : Nat
  salt : Nat
  digest : String
deriving DecidableEq

/-- Idealized key derivation function of bcrypt: modelled as perfectly
binding to the plaintext (the digest determines the password), the ideal
functionality of an injective one way KDF. -/
def bcryptKdf (cost salt : Nat) (p : String) : String :=
  toString cost ++ "$" ++ toString salt ++ "$" ++ p

/-- bcrypt.hash(plaintext, cost) with the ambient random salt made an
explicit parameter. -/
def bcryptHash (cost salt : Nat) (p : String) : BcryptHash :=
  { cost := cost, salt := salt, digest := bcryptKdf cost salt p }

/-- bcrypt.compare(plaintext, hash): recompute the digest with the cost and
salt embedded in the stored hash and compare. -/
def bcryptCompare (p : String) (h : BcryptHash) : Bool :=
  h.digest == bcryptKdf h.cost h.salt p

/-! ## Credential store (usuarios table) -/

/-- One row of the usuarios table, the fields the auth routes touch. -/
structure UserRow where
  id : Nat
  nome : String
  cpf : String
  email : String
  telefone : Option String
  senha : BcryptHash
  ativo : Bool
  ultima_atualizacao : Nat
deriving DecidableEq

/-! ## Input validation (express-validator chains, routes/auth.js) -/

/-- Idealized model of validator.js isEmail (external dependency used by
body(email).isEmail()): one @ separating a nonempty local part from a
nonempty domain that contains a dot, and no spaces. The handlers only
branch on whether this check passes. -/
def isEmail (s : String) : Bool :=
  let cs := s.data
  let lp := cs.takeWhile (fun c => c ≠ '@')
  match cs.dropWhile (fun c => c ≠ '@') with
  | '@' :: dom =>
    decide (lp ≠ []) && decide (dom ≠ []) && !dom.contains '@' &&
      dom.contains '.' && !cs.contains ' '
  | _ => false

/-- Model of the normalizeEmail sanitizer (lowercasing, the part of the
normalization the lookups can observe). -/
def normalizeEmail (s : String) : String :=
  String.mk (s.data.map Char.toLower)

/-- The whitespace class of the JS trim sanitizer. -/
def jsWhitespace (c : Char) : Bool :=
  c == ' ' || c == '\t' || c == '\n' || c == '\r'

/-- Model of the trim sanitizer applied to nome: strip leading and
trailing whitespace. -/
def jsTrim (s : String) : String :=
  String.mk (((s.data.dropWhile jsWhitespace).reverse.dropWhile jsWhitespace).reverse)

/-- The cpf pattern of routes/auth.js line 96: ddd.ddd.ddd-dd. -/
def cpfPattern (s : String) : Bool :=
  match s.data with
  | [a, b, c, '.', d, e, f, '.', g, h, i, '-', j, k] =>
    [a, b, c, d, e, f, g, h, i, j, k].all Char.isDigit
  | _ => false

/-- The telefone pattern of routes/auth.js line 98: (dd) dddd-dddd or
(dd) ddddd-dddd. -/
def telefonePattern (s : String) : Bool :=
  match s.data with
  | ['(', a, b, ')', ' ', c, d, e, f, '-', g, h, i, j] =>
    [a, b, c, d, e, f, g, h, i, j].all Char.isDigit
  | ['(', a, b, ')', ' ', c, d, e, f, f5, '-', g, h, i, j] =>
    [a, b, c, d, e, f, f5, g, h, i, j].all Char.isDigit
  | _ => false

/-- Request body of POST /api/auth/login. -/
structure LoginBody where
  email : String
  senha : String
deriving DecidableEq

/-- Request body of POST /api/auth/register. -/
structure RegisterBody where
  nome : String
  cpf : String
  email : String
  telefone : Option String
  senha : String
deriving DecidableEq

/-- validationResult for the login chain (routes/auth.js lines 26-27):
email must be an email address, senha must have length at least 1. Returns
the fields that failed. -/
def loginValidationErrors (b : LoginBody) : List String :=
  (if isEmail b.email then [] else ["email"]) ++
    (if b.senha.length ≥ 1 then [] else ["senha"])

/-- validationResult for the register chain (routes/auth.js lines 95-99):
nome length in [2,100], cpf pattern, email, optional telefone pattern,
senha length at least 6. Returns the fields that failed. -/
def registerValidationErrors (b : RegisterBody) : List String :=
  (if 2 ≤ b.nome.length ∧ b.nome.length ≤ 100 then [] else ["nome"]) ++
    (if cpfPattern b.cpf then [] else ["cpf"]) ++
    (if isEmail b.email then [] else ["email"]) ++
    (match b.telefone with
     | none => []
     | some t => if telefonePattern t then [] else ["telefone"]) ++
    (if b.senha.length ≥ 6 then [] else ["senha"])

/-! ## HTTP responses -/

/-- The public user object returned by login, register and verify:
exactly id, nome, email. -/
structure PublicUser where
  id : Nat
  nome : String
  email : String
deriving DecidableEq

/-- The JSON body shapes produced by the auth routes. -/
inductive RespBody where
  | errorMsg (error : String)
  | validationFailed (error : String) (details : List String)
  | serverError (error : String) (details : String)
  | authOk (message : String) (token : SignedToken) (user : PublicUser)
  | verifyOk (valid : Bool) (user : PublicUser)
deriving DecidableEq

/-- An HTTP response: status code and JSON body. -/
structure HttpResponse where
  status : Nat
  body : RespBody
deriving DecidableEq

/-- An error thrown by a pool.query call: the postgres error code (23505
for a unique constraint violation) and the message the catch blocks echo
into details. -/
structure SqlError where
  code : String
  message : String
deriving DecidableEq

/-! ## Route handlers (routes/auth.js) -/

/-- POST /api/auth/login (routes/auth.js lines 25-91). Returns the
response and the store after the request: validation failure 400;
lookup of an active user by (normalized) email, first row taken; missing
user and wrong password both answer 401 with the same body; success issues
a token, stamps ultima_atualizacao of that user id and returns the public
user fields. -/
def loginHandler (secret : String) (now : Nat) (db : List UserRow) (b : LoginBody) :
    HttpResponse × List UserRow :=
  if loginValidationErrors b ≠ [] then
    (⟨400, .validationFailed "Dados inválidos" (loginValidationErrors b)⟩, db)
  else
    let email := normalizeEmail b.email
    match db.filter (fun u => u.email == email && u.ativo) with
    | [] => (⟨401, .errorMsg "Email ou senha incorretos"⟩, db)
    | user :: _ =>
      if ¬ bcryptCompare b.senha user.senha then
        (⟨401, .errorMsg "Email ou senha incorretos"⟩, db)
      else
        let token := generateToken secret now user.id user.email user.nome
        let db' := db.map (fun u =>
          if u.id == user.id then { u with ultima_atualizacao := now } else u)
        (⟨200, .authOk "Login realizado com sucesso" token
            { id := user.id, nome := user.nome, email := user.email }⟩, db')

/-- POST /api/auth/register (routes/auth.js lines 94-173). The random
bcrypt salt, the id the store assigns, and the outcome of the INSERT
(none = success; some e = the store threw e, for example the unique
constraint violation of the check-then-act race) are explicit parameters.
The catch block maps every thrown error to 500 with its message as
details; there is no constraint-violation branch in this route. The ativo
flag and the initial timestamp of the new row are store defaults (the
schema is outside the repository; the spec scenario register-then-login
fixes ativo = true). -/
def registerHandler (secret : String) (now : Nat) (nextId salt : Nat)
    (insertErr : Option SqlError) (db : List UserRow) (b : RegisterBody) :
    HttpResponse × List UserRow :=
  if registerValidationErrors b ≠ [] then
    (⟨400, .validationFailed "Dados inválidos" (registerValidationErrors b)⟩, db)
  else
    let email := normalizeEmail b.email
    let nome := jsTrim b.nome
    if db.any (fun u => u.email == email) then
      (⟨409, .errorMsg "Este email já está cadastrado"⟩, db)
    else if db.any (fun u => u.cpf == b.cpf) then
      (⟨409, .errorMsg "Este CPF já está cadastrado"⟩, db)
    else
      match insertErr with
      | some e => (⟨500, .serverError "Erro interno do servidor" e.message⟩, db)
      | none =>
        let senhaHash := bcryptHash 12 salt b.senha
        let row : UserRow :=
          { id := nextId, nome := nome, cpf := b.cpf, email := email,
            telefone := b.telefone, senha := senhaHash, ativo := true,
            ultima_atualizacao := now }
        let token := generateToken secret now nextId email nome
        (⟨201, .authOk "Usuário cadastrado com sucesso" token
            { id := nextId, nome := nome, email := email }⟩, db ++ [row])

/-- GET /api/auth/verify (routes/auth.js lines 176-206). Same header
extraction as the middleware; 401 without a token; 401 on any verification
error; then the extra store check, re-querying the claimed userId with
ativo = true: 401 when missing or inactive, otherwise 200 with valid true
and the public fields of that row. -/
def verifyHandler (wire : String → Option SignedToken) (secret : String) (now : Nat)
    (db : List UserRow) (authHeader : Option String) : HttpResponse :=
  match extractToken authHeader with
  | none => ⟨401, .errorMsg "Token não fornecido"⟩
  | some ts =>
    match jwtVerifyStr wire secret now ts with
    | .error _ => ⟨401, .errorMsg "Token inválido"⟩
    | .ok t =>
      match db.filter (fun u => u.id == t.claims.userId && u.ativo) with
      | [] => ⟨401, .errorMsg "Usuário não encontrado ou inativo"⟩
      | u :: _ => ⟨200, .verifyOk true { id := u.id, nome := u.nome, email := u.email }⟩

/-! ## Helper lemmas -/

/-- The idealized KDF is injective in the plaintext for a fixed cost and
salt. -/
theorem bcryptKdf_inj {cost salt : Nat} {p q : String}
    (h : bcryptKdf cost salt p = bcryptKdf cost salt q) : p = q := by
  unfold bcryptKdf at h
  have hd := congrArg String.data h
  simp only [String.data_append] at hd
  exact String.ext (List.append_cancel_left hd)

/-- Splitting a space free character list yields the single group holding
the whole list. -/
theorem splitOnSpace_of_no_space (cs : List Char) (h : ' ' ∉ cs) :
    splitOnSpace cs = [cs] := by
  induction cs with
  | nil => rfl
  | cons c rest ih =>
    have hc : c ≠ ' ' := fun hc => h (hc ▸ List.mem_cons_self c rest)
    have hr : ' ' ∉ rest := fun hr => h (List.mem_cons_of_mem c hr)
    simp only [splitOnSpace, ih hr, if_neg hc]

/-- Splitting a list whose first space sits right after a space free
first group peels that group off. -/
theorem splitOnSpace_append (w t : List Char) (hw : ' ' ∉ w) :
    splitOnSpace (w ++ ' ' :: t) = w :: splitOnSpace t := by
  induction w with
  | nil => simp [splitOnSpace]
  | cons c w' ih =>
    have hc : c ≠ ' ' := fun hc => hw (hc ▸ List.mem_cons_self c w')
    have hw' : ' ' ∉ w' := fun hm => hw (List.mem_cons_of_mem c hm)
    have ih' : splitOnSpace (List.append w' (' ' :: t)) = w' :: splitOnSpace t := ih hw'
    simp only [List.cons_append, splitOnSpace, if_neg hc, ih']

/-- Rebuilding a string from its character data is the identity. -/
theorem string_mk_data (s : String) : String.mk s.data = s := by
  obtain ⟨d⟩ := s
  rfl

/-- Token extraction on a well formed two part header picks the second
part. -/
theorem extractToken_two_parts (w t : String) (hw : ' ' ∉ w.data)
    (ht : ' ' ∉ t.data) (hne : t ≠ "") :
    extractToken (some (w ++ " " ++ t)) = some t := by
  have hdata : (w ++ " " ++ t).data = w.data ++ ' ' :: t.data := by
    simp [String.data_append]
  have hempty : w ++ " " ++ t ≠ "" := by
    intro h
    have := congrArg String.data h
    rw [hdata] at this
    exact absurd this (by simp)
  simp only [extractToken, jsSplitSpace]
  rw [if_neg hempty, hdata, splitOnSpace_append w.data t.data hw,
    splitOnSpace_of_no_space t.data ht]
  simp [string_mk_data, hne]

/-- Token extraction on a header with no space finds no second part. -/
theorem extractToken_no_space (h : String) (hs : ' ' ∉ h.data) :
    extractToken (some h) = none := by
  simp only [extractToken, jsSplitSpace]
  by_cases he : h = ""
  · rw [if_pos he]
  · rw [if_neg he, splitOnSpace_of_no_space h.data hs]
    rfl

/-! ## Claims -/

/-- Claim C7: password round trip. For every plaintext p, comparing p
against the cost 12 hash of p (the registration hash) succeeds, and for
every distinct plaintext q the comparison fails, for any salt. -/
theorem c7_password_roundtrip (p q : String) (salt : Nat) :
    bcryptCompare p (bcryptHash 12 salt p) = true ∧
      (q ≠ p → bcryptCompare q (bcryptHash 12 salt p) = false) := by
  constructor
  · simp [bcryptCompare, bcryptHash]
  · intro hne
    simp only [bcryptCompare, bcryptHash]
    rw [beq_eq_false_iff_ne]
    intro h
    exact hne (bcryptKdf_inj h).symm

/-- Witness for C7 at a concrete password pair. -/
theorem c7_password_roundtrip_witness :
    bcryptCompare "segredo1" (bcryptHash 12 7 "segredo1") = true ∧
      bcryptCompare "segredo2" (bcryptHash 12 7 "segredo1") = false :=
  ⟨(c7_password_roundtrip "segredo1" "segredo2" 7).1,
    (c7_password_roundtrip "segredo1" "segredo2" 7).2 (by decide)⟩

/-- Claim C2: token round trip. Verifying a token issued by generateToken
with the same shared secret at any time strictly before 24 hours (86400
seconds) after issuance succeeds and yields exactly the same three claims;
at or after that moment it fails (TokenExpiredError, the InvalidToken
category). -/
theorem c2_token_roundtrip (secret : String) (now t userId : Nat) (email nome : String) :
    (t < now + 86400 →
       jwtVerifyTok secret t (generateToken secret now userId email nome) =
         .ok (generateToken secret now userId email nome) ∧
       (generateToken secret now userId email nome).claims =
         { userId := userId, email := email, nome := nome }) ∧
    (now + 86400 ≤ t →
       jwtVerifyTok secret t (generateToken secret now userId email nome) =
         .error .expired) := by
  constructor
  · intro hlt
    constructor
    · simp [jwtVerifyTok, generateToken, jwtSign, Nat.not_le.mpr hlt]
    · rfl
  · intro hge
    simp [jwtVerifyTok, generateToken, jwtSign, hge]

/-- Witness for C2 at concrete times on both sides of the expiry. -/
theorem c2_token_roundtrip_witness :
    (jwtVerifyTok "s" 86399 (generateToken "s" 0 1 "ana@x.com" "Ana") =
       .ok (generateToken "s" 0 1 "ana@x.com" "Ana") ∧
     (generateToken "s" 0 1 "ana@x.com" "Ana").claims =
       { userId := 1, email := "ana@x.com", nome := "Ana" }) ∧
    jwtVerifyTok "s" 86400 (generateToken "s" 0 1 "ana@x.com" "Ana") =
      .error .expired :=
  ⟨(c2_token_roundtrip "s" 0 86399 1 "ana@x.com" "Ana").1 (by decide),
    (c2_token_roundtrip "s" 0 86400 1 "ana@x.com" "Ana").2 (by decide)⟩

/-- Claim C1: Access Gate trichotomy on protected routes. On every request
path under the tasks, drivers, trucks or statistics namespaces, the gate
rejects 401 when no token can be extracted from the Authorization header,
rejects 403 with error Token inválido ou expirado when a token is present
but verification against the shared secret fails for any reason, and
otherwise forwards the request with the decoded claims attached. -/
theorem c1_access_gate_outcomes (wire : String → Option SignedToken)
    (secret : String) (now : Nat) (path : String) (hdr : Option String)
    (hpath : protectedNamespaces.any (fun ns => leadsWith ns.data path.data) = true) :
    (extractToken hdr = none →
       routeGate wire secret now path hdr =
         some (.reject 401 "Token de acesso requerido")) ∧
    (∀ ts e, extractToken hdr = some ts →
       jwtVerifyStr wire secret now ts = .error e →
       routeGate wire secret now path hdr =
         some (.reject 403 "Token inválido ou expirado")) ∧
    (∀ ts tok, extractToken hdr = some ts →
       jwtVerifyStr wire secret now ts = .ok tok →
       routeGate wire secret now path hdr = some (.proceed tok)) := by
  refine ⟨fun hext => ?_, fun ts e hext hv => ?_, fun ts tok hext hv => ?_⟩
  · simp [routeGate, hpath, authenticateToken, hext]
  · simp [routeGate, hpath, authenticateToken, hext, hv]
  · simp [routeGate, hpath, authenticateToken, hext, hv]

/-- Witness for C1: missing header on a tasks route rejects 401, and a
verifying token on the same route proceeds. -/
theorem c1_access_gate_outcomes_witness :
    routeGate (fun _ => none) "s" 0 "/api/tarefas/7" none =
      some (.reject 401 "Token de acesso requerido") ∧
    routeGate (fun _ => some (generateToken "s" 0 1 "ana@x.com" "Ana")) "s" 10
        "/api/tarefas/7" (some "Bearer t") =
      some (.proceed (generateToken "s" 0 1 "ana@x.com" "Ana")) :=
  ⟨(c1_access_gate_outcomes (fun _ => none) "s" 0 "/api/tarefas/7" none
      (by decide)).1 rfl,
   (c1_access_gate_outcomes (fun _ => some (generateToken "s" 0 1 "ana@x.com" "Ana"))
      "s" 10 "/api/tarefas/7" (some "Bearer t") (by decide)).2.2 "t"
      (generateToken "s" 0 1 "ana@x.com" "Ana") (by decide) rfl⟩

/-- Claim C10: the gate never inspects the scheme word of the
Authorization header. Any header of the form word-space-token uses the
second part as the token, a verifying token behind any scheme word (for
example Basic) proceeds, and any header without a space, the bare token or
the word Bearer alone included, is treated as an absent token and rejected
401. -/
theorem c10_gate_ignores_scheme (wire : String → Option SignedToken)
    (secret : String) (now : Nat) (w t h : String) (tok : SignedToken) :
    (' ' ∉ w.data → ' ' ∉ t.data → t ≠ "" →
       extractToken (some (w ++ " " ++ t)) = some t) ∧
    (' ' ∉ w.data → ' ' ∉ t.data → t ≠ "" →
       jwtVerifyStr wire secret now t = .ok tok →
       authenticateToken wire secret now (some (w ++ " " ++ t)) = .proceed tok) ∧
    (' ' ∉ h.data →
       authenticateToken wire secret now (some h) =
         .reject 401 "Token de acesso requerido") := by
  refine ⟨fun hw ht hne => extractToken_two_parts w t hw ht hne,
    fun hw ht hne hv => ?_, fun hs => ?_⟩
  · simp [authenticateToken, extractToken_two_parts w t hw ht hne, hv]
  · simp [authenticateToken, extractToken_no_space h hs]

/-- Witness for C10: a Basic scheme with a verifying token proceeds, and
the bare token without a scheme word is rejected 401. -/
theorem c10_gate_ignores_scheme_witness :
    authenticateToken (fun _ => some (generateToken "s" 0 1 "ana@x.com" "Ana")) "s" 10
        (some ("Basic" ++ " " ++ "tok")) =
      .proceed (generateToken "s" 0 1 "ana@x.com" "Ana") ∧
    authenticateToken (fun _ => some (generateToken "s" 0 1 "ana@x.com" "Ana")) "s" 10
        (some "tok") =
      .reject 401 "Token de acesso requerido" :=
  ⟨(c10_gate_ignores_scheme (fun _ => some (generateToken "s" 0 1 "ana@x.com" "Ana"))
      "s" 10 "Basic" "tok" "tok" (generateToken "s" 0 1 "ana@x.com" "Ana")).2.1
      (by decide) (by decide) (by decide) rfl,
   (c10_gate_ignores_scheme (fun _ => some (generateToken "s" 0 1 "ana@x.com" "Ana"))
      "s" 10 "Basic" "tok" "tok" (generateToken "s" 0 1 "ana@x.com" "Ana")).2.2
      (by decide)⟩

/-- Deactivation of one user: the UPDATE setting ativo = false for a given
id, the store operation the deactivation scenario of the spec performs. -/
def deactivate (uid : Nat) (db : List UserRow) : List UserRow :=
  db.map (fun u => if u.id == uid then { u with ativo := false } else u)

/-- A concrete store row used by the witnesses: the registered user of the
spec scenario. -/
def anaRow : UserRow :=
  { id := 1, nome := "Ana Silva", cpf := "123.456.789-01", email := "ana@x.com",
    telefone := none, senha := bcryptHash 12 7 "segredo1", ativo := true,
    ultima_atualizacao := 0 }

/-- Claim C4: two run indistinguishability of the login failure cause. For
a shape valid request whose email matches no active user and a shape valid
request whose active user exists but whose password fails the comparison,
the responses are the same: status 401, body error Email ou senha
incorretos. -/
theorem c4_login_failure_indistinguishable (secret : String) (now : Nat)
    (db : List UserRow) (b1 b2 : LoginBody) (u : UserRow) (rest : List UserRow)
    (hv1 : loginValidationErrors b1 = [])
    (hv2 : loginValidationErrors b2 = [])
    (hnone : db.filter (fun v => v.email == normalizeEmail b1.email && v.ativo) = [])
    (hsome : db.filter (fun v => v.email == normalizeEmail b2.email && v.ativo) = u :: rest)
    (hpw : bcryptCompare b2.senha u.senha = false) :
    (loginHandler secret now db b1).1 = ⟨401, .errorMsg "Email ou senha incorretos"⟩ ∧
      (loginHandler secret now db b2).1 = (loginHandler secret now db b1).1 := by
  have h1 : loginHandler secret now db b1 =
      (⟨401, .errorMsg "Email ou senha incorretos"⟩, db) := by
    simp [loginHandler, hv1, hnone]
  have h2 : loginHandler secret now db b2 =
      (⟨401, .errorMsg "Email ou senha incorretos"⟩, db) := by
    simp [loginHandler, hv2, hsome, hpw]
  rw [h1, h2]
  exact ⟨rfl, rfl⟩

/-- Witness for C4: unknown email and wrong password against the sample
store produce the identical response. -/
theorem c4_login_failure_indistinguishable_witness :
    (loginHandler "s" 5 [anaRow] { email := "bob@x.com", senha := "whatever" }).1 =
      ⟨401, .errorMsg "Email ou senha incorretos"⟩ ∧
    (loginHandler "s" 5 [anaRow] { email := "ana@x.com", senha := "wrongpass" }).1 =
      (loginHandler "s" 5 [anaRow] { email := "bob@x.com", senha := "whatever" }).1 :=
  c4_login_failure_indistinguishable "s" 5 [anaRow]
    { email := "bob@x.com", senha := "whatever" }
    { email := "ana@x.com", senha := "wrongpass" } anaRow []
    (by decide) (by decide) (by decide) (by decide) (by decide)

/-- Claim C5: /verify re-checks the store beyond signature and expiry. When
the extracted token verifies, a missing or inactive user for the claimed
userId still answers 401; an active user answers 200 with valid true and
the public fields of that row; and deactivating the claimed user flips a
previously succeeding verify to the 401 failure. -/
theorem c5_verify_checks_active (wire : String → Option SignedToken)
    (secret : String) (now : Nat) (db : List UserRow) (hdr : Option String)
    (ts : String) (tok : SignedToken)
    (hext : extractToken hdr = some ts)
    (hv : jwtVerifyStr wire secret now ts = .ok tok) :
    (db.filter (fun u => u.id == tok.claims.userId && u.ativo) = [] →
       verifyHandler wire secret now db hdr =
         ⟨401, .errorMsg "Usuário não encontrado ou inativo"⟩) ∧
    (∀ u rest, db.filter (fun u => u.id == tok.claims.userId && u.ativo) = u :: rest →
       verifyHandler wire secret now db hdr =
         ⟨200, .verifyOk true { id := u.id, nome := u.nome, email := u.email }⟩) ∧
    (verifyHandler wire secret now (deactivate tok.claims.userId db) hdr =
      ⟨401, .errorMsg "Usuário não encontrado ou inativo"⟩) := by
  refine ⟨fun hempty => ?_, fun u rest hcons => ?_, ?_⟩
  · simp [verifyHandler, hext, hv, hempty]
  · simp [verifyHandler, hext, hv, hcons]
  · have hempty2 : (deactivate tok.claims.userId db).filter
        (fun u => u.id == tok.claims.userId && u.ativo) = [] := by
      rw [List.filter_eq_nil_iff]
      intro a ha
      rw [deactivate] at ha
      obtain ⟨v, hvm, rfl⟩ := List.mem_map.mp ha
      by_cases hid : (v.id == tok.claims.userId) = true
      · simp [hid]
      · simp [hid]
    simp [verifyHandler, hext, hv, hempty2]

/-- Witness for C5: a verifying token for the sample user answers 200 with
the public fields, and the same request against the deactivated store
answers 401. -/
theorem c5_verify_checks_active_witness :
    verifyHandler (fun _ => some (generateToken "s" 0 1 "ana@x.com" "Ana Silva")) "s" 10
        [anaRow] (some "Bearer tok") =
      ⟨200, .verifyOk true { id := 1, nome := "Ana Silva", email := "ana@x.com" }⟩ ∧
    verifyHandler (fun _ => some (generateToken "s" 0 1 "ana@x.com" "Ana Silva")) "s" 10
        [{ anaRow with ativo := false }] (some "Bearer tok") =
      ⟨401, .errorMsg "Usuário não encontrado ou inativo"⟩ :=
  ⟨(c5_verify_checks_active (fun _ => some (generateToken "s" 0 1 "ana@x.com" "Ana Silva"))
      "s" 10 [anaRow] (some "Bearer tok") "tok"
      (generateToken "s" 0 1 "ana@x.com" "Ana Silva") (by decide) rfl).2.1 anaRow []
      (by decide),
   (c5_verify_checks_active (fun _ => some (generateToken "s" 0 1 "ana@x.com" "Ana Silva"))
      "s" 10 [{ anaRow with ativo := false }] (some "Bearer tok") "tok"
      (generateToken "s" 0 1 "ana@x.com" "Ana Silva") (by decide) rfl).1 (by decide)⟩

/-- Claim C6: registration outcomes after shape validation. An email
pre-check hit answers 409 naming the email collision and leaves the store
unchanged; a cpf pre-check hit answers 409 naming the CPF collision and
leaves the store unchanged; and when both pre-checks pass (and the insert
goes through) the result is 201 with a token and a user object holding
exactly id, nome, email, never the stored hash. -/
theorem c6_register_outcomes (secret : String) (now nextId salt : Nat)
    (insertErr : Option SqlError) (db : List UserRow) (b : RegisterBody)
    (hval : registerValidationErrors b = []) :
    (db.any (fun u => u.email == normalizeEmail b.email) = true →
       registerHandler secret now nextId salt insertErr db b =
         (⟨409, .errorMsg "Este email já está cadastrado"⟩, db)) ∧
    (db.any (fun u => u.email == normalizeEmail b.email) = false →
     db.any (fun u => u.cpf == b.cpf) = true →
       registerHandler secret now nextId salt insertErr db b =
         (⟨409, .errorMsg "Este CPF já está cadastrado"⟩, db)) ∧
    (db.any (fun u => u.email == normalizeEmail b.email) = false →
     db.any (fun u => u.cpf == b.cpf) = false →
       registerHandler secret now nextId salt none db b =
         (⟨201, .authOk "Usuário cadastrado com sucesso"
              (generateToken secret now nextId (normalizeEmail b.email) (jsTrim b.nome))
              { id := nextId, nome := jsTrim b.nome, email := normalizeEmail b.email }⟩,
           db ++ [{ id := nextId, nome := jsTrim b.nome, cpf := b.cpf,
                    email := normalizeEmail b.email, telefone := b.telefone,
                    senha := bcryptHash 12 salt b.senha, ativo := true,
                    ultima_atualizacao := now }])) := by
  refine ⟨fun he => ?_, fun he hc => ?_, fun he hc => ?_⟩
  · simp [registerHandler, hval, he]
  · simp [registerHandler, hval, he, hc]
  · simp [registerHandler, hval, he, hc]

/-- Witness for C6: the spec scenario registration answers 201 against the
empty store, and a second registration with the same cpf but a different
email answers the CPF conflict. -/
theorem c6_register_outcomes_witness :
    registerHandler "s" 0 1 7 none []
        { nome := "Ana Silva", cpf := "123.456.789-01", email := "ana@x.com",
          telefone := none, senha := "segredo1" } =
      (⟨201, .authOk "Usuário cadastrado com sucesso"
           (generateToken "s" 0 1 "ana@x.com" "Ana Silva")
           { id := 1, nome := "Ana Silva", email := "ana@x.com" }⟩,
        [anaRow]) ∧
    registerHandler "s" 0 2 9 none [anaRow]
        { nome := "Outra Pessoa", cpf := "123.456.789-01", email := "outra@x.com",
          telefone := none, senha := "segredo2" } =
      (⟨409, .errorMsg "Este CPF já está cadastrado"⟩, [anaRow]) :=
  ⟨(c6_register_outcomes "s" 0 1 7 none []
      { nome := "Ana Silva", cpf := "123.456.789-01", email := "ana@x.com",
        telefone := none, senha := "segredo1" } (by decide)).2.2 (by decide) (by decide),
   (c6_register_outcomes "s" 0 2 9 none [anaRow]
      { nome := "Outra Pessoa", cpf := "123.456.789-01", email := "outra@x.com",
        telefone := none, senha := "segredo2" } (by decide)).2.1 (by decide) (by decide)⟩

/-- Claim C3 counterexample: a registration whose INSERT throws the unique
constraint violation signal (code 23505) after both pre-checks passed is
answered 500, not the 409 the claim states: the catch block of the
register route has no constraint violation branch. -/
theorem c3_insert_conflict_counterexample :
    (registerHandler "s" 0 1 7
        (some { code := "23505", message := "duplicate key value" }) []
        { nome := "Ana Silva", cpf := "123.456.789-01", email := "ana@x.com",
          telefone := none, senha := "segredo1" }).1.status = 500 ∧
    (registerHandler "s" 0 1 7
        (some { code := "23505", message := "duplicate key value" }) []
        { nome := "Ana Silva", cpf := "123.456.789-01", email := "ana@x.com",
          telefone := none, senha := "segredo1" }).1.status ≠ 409 := by
  constructor
  · rfl
  · decide

/-- Claim C3 as amended: every INSERT time store error in registration,
the 23505 unique constraint violation included, is mapped by the catch
block to 500 Erro interno do servidor with the error message as details;
only the pre-checks produce 409. -/
theorem c3_insert_error_maps_to_500 (secret : String) (now nextId salt : Nat)
    (e : SqlError) (db : List UserRow) (b : RegisterBody)
    (hval : registerValidationErrors b = [])
    (he : db.any (fun u => u.email == normalizeEmail b.email) = false)
    (hc : db.any (fun u => u.cpf == b.cpf) = false) :
    registerHandler secret now nextId salt (some e) db b =
      (⟨500, .serverError "Erro interno do servidor" e.message⟩, db) := by
  simp [registerHandler, hval, he, hc]

/-- Witness for the amended C3 at the 23505 constraint violation signal. -/
theorem c3_insert_error_maps_to_500_witness :
    registerHandler "s" 0 1 7
        (some { code := "23505", message := "duplicate key value" }) []
        { nome := "Ana Silva", cpf := "123.456.789-01", email := "ana@x.com",
          telefone := none, senha := "segredo1" } =
      (⟨500, .serverError "Erro interno do servidor" "duplicate key value"⟩, []) :=
  c3_insert_error_maps_to_500 "s" 0 1 7
    { code := "23505", message := "duplicate key value" } []
    { nome := "Ana Silva", cpf := "123.456.789-01", email := "ana@x.com",
      telefone := none, senha := "segredo1" } (by decide) (by decide) (by decide)

/-- Claim C8: the 6 character password minimum is enforced only at
registration, before hashing or store writes. Every registration body with
senha shorter than 6 answers 400 with the store untouched, while a login
body with a well formed email and any nonempty senha passes shape
validation and is never answered 400. -/
theorem c8_password_minlength_registration_only (secret : String) (now nextId salt : Nat)
    (insertErr : Option SqlError) (db : List UserRow) (br : RegisterBody) (bl : LoginBody) :
    (br.senha.length < 6 →
       (registerHandler secret now nextId salt insertErr db br).1.status = 400 ∧
       (registerHandler secret now nextId salt insertErr db br).2 = db) ∧
    (isEmail bl.email = true → 1 ≤ bl.senha.length →
       loginValidationErrors bl = [] ∧
       (loginHandler secret now db bl).1.status ≠ 400) := by
  constructor
  · intro hshort
    have hmem : "senha" ∈ registerValidationErrors br := by
      have h6 : ¬ (br.senha.length ≥ 6) := by omega
      simp [registerValidationErrors, h6]
    have hne : registerValidationErrors br ≠ [] := List.ne_nil_of_mem hmem
    constructor <;> simp [registerHandler, hne]
  · intro hemail hlen
    have hval : loginValidationErrors bl = [] := by
      simp [loginValidationErrors, hemail, hlen]
    refine ⟨hval, ?_⟩
    cases hfil : db.filter (fun v => v.email == normalizeEmail bl.email && v.ativo) with
    | nil => simp [loginHandler, hval, hfil]
    | cons u rest =>
      by_cases hpw : bcryptCompare bl.senha u.senha = true
      · simp [loginHandler, hval, hfil, hpw]
      · simp [loginHandler, hval, hfil, hpw]

/-- Witness for C8: a 3 character password is rejected 400 at registration
and accepted for shape at login. -/
theorem c8_password_minlength_registration_only_witness :
    (registerHandler "s" 5 2 9 none [anaRow]
        { nome := "Ana Silva", cpf := "123.456.789-01", email := "ana@x.com",
          telefone := none, senha := "abc" }).1.status = 400 ∧
    (loginHandler "s" 5 [anaRow] { email := "ana@x.com", senha := "abc" }).1.status ≠ 400 :=
  ⟨((c8_password_minlength_registration_only "s" 5 2 9 none [anaRow]
      { nome := "Ana Silva", cpf := "123.456.789-01", email := "ana@x.com",
        telefone := none, senha := "abc" }
      { email := "ana@x.com", senha := "abc" }).1 (by decide)).1,
   ((c8_password_minlength_registration_only "s" 5 2 9 none [anaRow]
      { nome := "Ana Silva", cpf := "123.456.789-01", email := "ana@x.com",
        telefone := none, senha := "abc" }
      { email := "ana@x.com", senha := "abc" }).2 (by decide) (by decide)).2⟩

/-- Claim C9: frame condition of login. Every response that is not the 200
success leaves the store exactly as it was; the success path rewrites the
store to the same rows with only the matched id receiving the new
ultima_atualizacao stamp: rows of other ids are still present unchanged,
and erasing the timestamp field makes the two stores equal row by row. -/
theorem c9_login_frame (secret : String) (now : Nat) (db : List UserRow) (b : LoginBody) :
    ((loginHandler secret now db b).1.status ≠ 200 →
       (loginHandler secret now db b).2 = db) ∧
    (∀ u rest, loginValidationErrors b = [] →
       db.filter (fun v => v.email == normalizeEmail b.email && v.ativo) = u :: rest →
       bcryptCompare b.senha u.senha = true →
       (loginHandler secret now db b).2 =
         db.map (fun v => if v.id == u.id then { v with ultima_atualizacao := now } else v) ∧
       (∀ v ∈ db, v.id ≠ u.id → v ∈ (loginHandler secret now db b).2) ∧
       ((loginHandler secret now db b).2).map (fun v => { v with ultima_atualizacao := 0 }) =
         db.map (fun v => { v with ultima_atualizacao := 0 })) := by
  constructor
  · by_cases hv : loginValidationErrors b = []
    · cases hfil : db.filter (fun v => v.email == normalizeEmail b.email && v.ativo) with
      | nil => intro _; simp [loginHandler, hv, hfil]
      | cons u rest =>
        by_cases hpw : bcryptCompare b.senha u.senha = true
        · intro hne
          exact absurd (by simp [loginHandler, hv, hfil, hpw]) hne
        · intro _; simp [loginHandler, hv, hfil, hpw]
    · intro _; simp [loginHandler, hv]
  · intro u rest hval hfil hpw
    have heq : (loginHandler secret now db b).2 =
        db.map (fun v => if v.id == u.id then { v with ultima_atualizacao := now } else v) := by
      simp [loginHandler, hval, hfil, hpw]
    refine ⟨heq, ?_, ?_⟩
    · intro v hvmem hne
      rw [heq]
      have hfalse : (v.id == u.id) = false := beq_eq_false_iff_ne.mpr hne
      exact List.mem_map.mpr ⟨v, hvmem, by simp [hfalse]⟩
    · rw [heq, List.map_map]
      apply List.map_congr_left
      intro a _
      by_cases hid : (a.id == u.id) = true
      · simp [Function.comp, hid]
      · simp [Function.comp, hid]

/-- Witness for C9: a failed login leaves the sample store unchanged and a
successful login only stamps the timestamp of the logged in user. -/
theorem c9_login_frame_witness :
    (loginHandler "s" 5 [anaRow] { email := "ana@x.com", senha := "wrongpass" }).2 =
      [anaRow] ∧
    (loginHandler "s" 5 [anaRow] { email := "ana@x.com", senha := "segredo1" }).2 =
      [{ anaRow with ultima_atualizacao := 5 }] :=
  ⟨(c9_login_frame "s" 5 [anaRow] { email := "ana@x.com", senha := "wrongpass" }).1
      (by decide),
   ((c9_login_frame "s" 5 [anaRow] { email := "ana@x.com", senha := "segredo1" }).2
      anaRow [] (by decide) (by decide) (by decide)).1⟩

end FastRoute
